import Mathlib

/-!
Verification of the agricultural drone flight simulator
(`simulator/simulator.py`) against its specification.

The simulator's state, waypoints and mission state machine are embedded
as Lean structures; the Python methods `calculate_distance`,
`calculate_bearing`, `move_towards_waypoint`, `update_battery`,
`add_realistic_noise`, `start_mission`, `pause_mission`,
`resume_mission`, `abort_mission` and `update_simulation` are embedded
as functions over those structures.  Python floats are modelled as real
numbers.  Calls to the random number generator are modelled by passing
the sampled values as explicit parameters (offsets, noise samples),
bounded by hypotheses where a property depends on the sampling range.
-/

noncomputable section

open Real

/-- Python `math.radians`. -/
def radians (d : ℝ) : ℝ := d * (Real.pi / 180)

/-- Python `math.degrees`. -/
def degrees (r : ℝ) : ℝ := r * (180 / Real.pi)

/-- Python's `%` on floats (for a positive right operand):
`x % y = x - y * floor (x / y)`. -/
def pymod (x y : ℝ) : ℝ := x - y * (⌊x / y⌋ : ℤ)

/-- Python `math.atan2 y x`. -/
def atan2 (y x : ℝ) : ℝ :=
  if 0 < x then Real.arctan (y / x)
  else if x < 0 then
    (if 0 ≤ y then Real.arctan (y / x) + Real.pi
     else Real.arctan (y / x) - Real.pi)
  else
    (if 0 < y then Real.pi / 2
     else if y < 0 then -(Real.pi / 2)
     else 0)

/-- `DroneSimulator.calculate_distance`: haversine distance in meters. -/
def calculate_distance (lat1 lon1 lat2 lon2 : ℝ) : ℝ :=
  let R : ℝ := 6371000
  let lat1_r := radians lat1
  let lon1_r := radians lon1
  let lat2_r := radians lat2
  let lon2_r := radians lon2
  let dlat := lat2_r - lat1_r
  let dlon := lon2_r - lon1_r
  let a := Real.sin (dlat / 2) ^ 2 +
    Real.cos lat1_r * Real.cos lat2_r * Real.sin (dlon / 2) ^ 2
  let c := 2 * atan2 (Real.sqrt a) (Real.sqrt (1 - a))
  R * c

/-- `DroneSimulator.calculate_bearing`: initial bearing in `[0, 360)`. -/
def calculate_bearing (lat1 lon1 lat2 lon2 : ℝ) : ℝ :=
  let lat1_r := radians lat1
  let lon1_r := radians lon1
  let lat2_r := radians lat2
  let lon2_r := radians lon2
  let dlon := lon2_r - lon1_r
  let y := Real.sin dlon * Real.cos lat2_r
  let x := Real.cos lat1_r * Real.sin lat2_r -
    Real.sin lat1_r * Real.cos lat2_r * Real.cos dlon
  pymod (degrees (atan2 y x) + 360) 360

end

section Model

/-- `DroneState.__init__`'s mutable fields (Python class `DroneState`).
The two wind fields are sampled with `random.uniform` at construction,
so the constructor below takes them as parameters. -/
structure DroneState where
  latitude : ℝ
  longitude : ℝ
  altitude_m : ℝ
  heading_deg : ℝ
  speed_ms : ℝ
  ground_speed_ms : ℝ
  vertical_speed_ms : ℝ
  roll_deg : ℝ
  pitch_deg : ℝ
  yaw_deg : ℝ
  battery_percent : ℝ
  gps_fix_type : ℤ
  satellites_visible : ℤ
  is_flying : Bool
  is_armed : Bool
  mission_active : Bool
  wind_speed_ms : ℝ
  wind_direction_deg : ℝ

/-- `DroneState()` with wind sampled externally. -/
def initDroneState (windSpeed windDir : ℝ) : DroneState :=
  { latitude := 40.7128
    longitude := -74.0060
    altitude_m := 0
    heading_deg := 0
    speed_ms := 0
    ground_speed_ms := 0
    vertical_speed_ms := 0
    roll_deg := 0
    pitch_deg := 0
    yaw_deg := 0
    battery_percent := 100
    gps_fix_type := 3
    satellites_visible := 12
    is_flying := false
    is_armed := false
    mission_active := false
    wind_speed_ms := windSpeed
    wind_direction_deg := windDir }

/-- Python class `Waypoint`. -/
structure Waypoint where
  latitude : ℝ
  longitude : ℝ
  altitude_m : ℝ
  action : String
  duration_s : ℝ
  completed : Bool

instance : Inhabited Waypoint :=
  ⟨{ latitude := 0, longitude := 0, altitude_m := 0, action := "fly_to",
     duration_s := 0, completed := false }⟩

/-- The mission-relevant fields of Python class `DroneSimulator`. -/
structure DroneSimulator where
  state : DroneState
  waypoints : List Waypoint
  current_waypoint_index : ℕ
  mission_id : Option ℤ
  mission_status : String

/-- `DroneSimulator()` (wind passed through to the state). -/
def initSimulator (windSpeed windDir : ℝ) : DroneSimulator :=
  { state := initDroneState windSpeed windDir
    waypoints := []
    current_waypoint_index := 0
    mission_id := none
    mission_status := "idle" }

/-- `self.max_speed_ms`. -/
def max_speed_ms : ℝ := 15

/-- `self.max_vertical_speed_ms`. -/
def max_vertical_speed_ms : ℝ := 5

/-- `self.battery_drain_rate` (% per minute base). -/
def battery_drain_rate : ℝ := 0.1

/-- `self.position_tolerance_m` (waypoint arrival tolerance). -/
def position_tolerance_m : ℝ := 2

/-- One entry of a mission descriptor's `waypoints` list:
each numeric key may be absent (`wp_data.get`). -/
structure WaypointData where
  lat : Option ℝ
  latitude : Option ℝ
  lng : Option ℝ
  longitude : Option ℝ
  alt : Option ℝ
  altitude_m : Option ℝ

/-- A mission descriptor (`mission_data`). -/
structure MissionData where
  mission_id : Option ℤ
  waypoints : List WaypointData

/-- The waypoint construction inside `start_mission`:
`lat = wp_data.get("lat", wp_data.get("latitude", 0))`,
`lng = wp_data.get("lng", wp_data.get("longitude", 0))`,
`alt = wp_data.get("alt", wp_data.get("altitude_m", 50))`,
with `Waypoint.__init__` defaults `action="fly_to"`, `duration=0.0`. -/
def buildWaypoint (w : WaypointData) : Waypoint :=
  { latitude := w.lat.getD (w.latitude.getD 0)
    longitude := w.lng.getD (w.longitude.getD 0)
    altitude_m := w.alt.getD (w.altitude_m.getD 50)
    action := "fly_to"
    duration_s := 0
    completed := false }

end Model

/-- A log line: level (`"warning"`, `"error"`, ...) and message text. -/
structure LogEvent where
  level : String
  message : String

/-- A `mission_status` event pushed by `send_mission_status`. -/
structure StatusEvent where
  status : String
  message : String

/-- The per-tick samples drawn by `add_realistic_noise`
(each `random.gauss`/`random.random`/`random.randint`/`random.choice`
call becomes one field). -/
structure NoiseSample where
  latNoise : ℝ
  lonNoise : ℝ
  altNoise : ℝ
  rollNoise : ℝ
  pitchNoise : ℝ
  headingNoise : ℝ
  speedNoise : ℝ
  groundSpeedNoise : ℝ
  satEvent : Bool
  satStep : ℤ
  fixEvent : Bool
  fixChoice : ℤ

/-- The all-zero / no-event noise sample. -/
def zeroNoise : NoiseSample :=
  { latNoise := 0, lonNoise := 0, altNoise := 0, rollNoise := 0,
    pitchNoise := 0, headingNoise := 0, speedNoise := 0,
    groundSpeedNoise := 0, satEvent := false, satStep := 0,
    fixEvent := false, fixChoice := 3 }

noncomputable section Ops

/-- `DroneSimulator.move_towards_waypoint`.  The single
`random.uniform(-0.5, 0.5)` ground-speed noise draw is the parameter
`gsNoise`.  Returns the new state and the "waypoint reached" flag. -/
def move_towards_waypoint (s : DroneState) (wp : Waypoint) (dt gsNoise : ℝ) :
    DroneState × Bool :=
  let distance_to_target :=
    calculate_distance s.latitude s.longitude wp.latitude wp.longitude
  if distance_to_target ≤ position_tolerance_m then (s, true)
  else
    let target_bearing :=
      calculate_bearing s.latitude s.longitude wp.latitude wp.longitude
    let altitude_difference := wp.altitude_m - s.altitude_m
    let bearing_diff := pymod (target_bearing - s.heading_deg + 180) 360 - 180
    let max_heading_change := 45 * dt
    let heading_change :=
      max (-max_heading_change) (min max_heading_change bearing_diff)
    let new_heading := pymod (s.heading_deg + heading_change) 360
    let horizontal_speed := min max_speed_ms (distance_to_target / 2)
    let vertical_speed :=
      max (-max_vertical_speed_ms)
        (min max_vertical_speed_ms (altitude_difference / 2))
    let wind_effect_x :=
      s.wind_speed_ms * Real.cos (radians s.wind_direction_deg)
    let wind_effect_y :=
      s.wind_speed_ms * Real.sin (radians s.wind_direction_deg)
    let bearing_rad := radians new_heading
    let distance_moved := horizontal_speed * dt
    let dlat := distance_moved * Real.cos bearing_rad / 111000 +
      wind_effect_x * dt / 111000 * 0.1
    let dlon := distance_moved * Real.sin bearing_rad /
        (111000 * Real.cos (radians s.latitude)) +
      wind_effect_y * dt / (111000 * Real.cos (radians s.latitude)) * 0.1
    let s1 := { s with
      latitude := s.latitude + dlat
      longitude := s.longitude + dlon
      altitude_m := s.altitude_m + vertical_speed * dt
      heading_deg := new_heading
      speed_ms := horizontal_speed
      ground_speed_ms := horizontal_speed + gsNoise
      vertical_speed_ms := vertical_speed
      yaw_deg := new_heading }
    let s2 :=
      if 1 < horizontal_speed then
        { s1 with
          roll_deg := max (-15) (min 15 (bearing_diff * 0.3))
          pitch_deg := max (-10) (min 10 (-horizontal_speed * 0.5)) }
      else
        { s1 with
          roll_deg := s1.roll_deg * 0.9
          pitch_deg := s1.pitch_deg * 0.9 }
    (s2, false)

/-- The `battery_drop` computed inside `DroneSimulator.update_battery`:
base drain rate, scaled by the speed (`×1.5`), vertical-speed (`×1.3`)
and wind-resistance (`1 + wind/20`) factors, applied over `dt/60`
minutes. -/
def battery_drop (s : DroneState) (dt : ℝ) : ℝ :=
  let drain_rate0 := battery_drain_rate
  let drain_rate1 :=
    if 10 < s.speed_ms then drain_rate0 * 1.5 else drain_rate0
  let drain_rate2 :=
    if 2 < |s.vertical_speed_ms| then drain_rate1 * 1.3
    else drain_rate1
  let wind_resistance_factor := 1 + s.wind_speed_ms / 20
  drain_rate2 * wind_resistance_factor * (dt / 60)

/-- `DroneSimulator.update_battery`.  Returns the updated simulator and
the warning log emitted on the emergency transition, if any. -/
def update_battery (sim : DroneSimulator) (dt : ℝ) :
    DroneSimulator × Option LogEvent :=
  let new_battery :=
    max 0 (sim.state.battery_percent - battery_drop sim.state dt)
  let s1 := { sim.state with battery_percent := new_battery }
  if new_battery < 5 ∧ sim.mission_status = "running" then
    ({ sim with state := s1, mission_status := "aborted" },
     some { level := "warning",
            message := "Emergency landing due to low battery!" })
  else
    ({ sim with state := s1 }, none)

/-- `DroneSimulator.add_realistic_noise` with the random draws supplied
as a `NoiseSample`. -/
def add_realistic_noise (s : DroneState) (n : NoiseSample) : DroneState :=
  { s with
    latitude := s.latitude + n.latNoise
    longitude := s.longitude + n.lonNoise
    altitude_m := s.altitude_m + n.altNoise
    roll_deg := s.roll_deg + n.rollNoise
    pitch_deg := s.pitch_deg + n.pitchNoise
    heading_deg := s.heading_deg + n.headingNoise
    speed_ms := s.speed_ms + n.speedNoise
    ground_speed_ms := s.ground_speed_ms + n.groundSpeedNoise
    satellites_visible :=
      if n.satEvent then
        max 6 (min 20 (s.satellites_visible + n.satStep))
      else s.satellites_visible
    gps_fix_type := if n.fixEvent then n.fixChoice else s.gps_fix_type }

/-- `DroneSimulator.start_mission`.  The two `random.uniform(-0.001,
0.001)` position-offset draws are the parameters `r1`, `r2`. -/
def start_mission (sim : DroneSimulator) (md : MissionData) (r1 r2 : ℝ) :
    DroneSimulator :=
  if sim.mission_status = "running" then sim
  else
    match md.waypoints.map buildWaypoint with
    | [] => { sim with mission_id := md.mission_id, waypoints := [] }
    | first_wp :: rest =>
      { sim with
        mission_id := md.mission_id
        waypoints := first_wp :: rest
        current_waypoint_index := 0
        mission_status := "running"
        state := { sim.state with
          latitude := first_wp.latitude + r1
          longitude := first_wp.longitude + r2
          altitude_m := 0
          is_flying := true
          mission_active := true } }

/-- `DroneSimulator.pause_mission`. -/
def pause_mission (sim : DroneSimulator) : DroneSimulator :=
  if sim.mission_status = "running" then
    { sim with mission_status := "paused" }
  else sim

/-- `DroneSimulator.resume_mission`. -/
def resume_mission (sim : DroneSimulator) : DroneSimulator :=
  if sim.mission_status = "paused" then
    { sim with mission_status := "running" }
  else sim

/-- `DroneSimulator.abort_mission`. -/
def abort_mission (sim : DroneSimulator) : DroneSimulator :=
  if sim.mission_status = "running" ∨ sim.mission_status = "paused" then
    { sim with
      mission_status := "aborted"
      state := { sim.state with mission_active := false } }
  else sim

open Classical in
/-- `DroneSimulator.update_simulation`: one tick.  `dt` is the measured
wall-clock interval; the random draws of this tick are `gsNoise` and
`n`.  Returns the new simulator, the `mission_status` events sent, and
the battery warning log, if any. -/
def update_simulation (sim : DroneSimulator) (dt gsNoise : ℝ)
    (n : NoiseSample) : DroneSimulator × List StatusEvent × Option LogEvent :=
  if sim.mission_status ≠ "running" then (sim, [], none)
  else if sim.waypoints = [] ∨
      sim.waypoints.length ≤ sim.current_waypoint_index then
    ({ sim with
       mission_status := "completed"
       state := { sim.state with mission_active := false } },
     [{ status := "completed", message := "All waypoints reached" }], none)
  else
    let current_waypoint := sim.waypoints.getD sim.current_waypoint_index default
    let mv := move_towards_waypoint sim.state current_waypoint dt gsNoise
    let sim1 := { sim with state := mv.1 }
    if mv.2 then
      let wps := sim1.waypoints.set sim1.current_waypoint_index
        { current_waypoint with completed := true }
      let idx := sim1.current_waypoint_index + 1
      let ev1 : StatusEvent :=
        { status := "waypoint_reached"
          message := "Reached waypoint " ++ toString idx ++ "/" ++
            toString wps.length }
      if wps.length ≤ idx then
        let sim2 := { sim1 with
          waypoints := wps
          current_waypoint_index := idx
          mission_status := "completed"
          state := { sim1.state with mission_active := false } }
        let ub := update_battery sim2 dt
        ({ ub.1 with state := add_realistic_noise ub.1.state n },
         [ev1, { status := "completed",
                 message := "Mission completed successfully" }], ub.2)
      else
        let sim2 := { sim1 with
          waypoints := wps
          current_waypoint_index := idx }
        let ub := update_battery sim2 dt
        ({ ub.1 with state := add_realistic_noise ub.1.state n },
         [ev1], ub.2)
    else
      let ub := update_battery sim1 dt
      ({ ub.1 with state := add_realistic_noise ub.1.state n }, [], ub.2)

/-- The tick loop (`run_simulation_loop`) restricted to its state
effect: `n` successive `update_simulation` calls, the `k`-th with
inputs `f k = (dt, gsNoise, noise)`. -/
def runTicks (sim : DroneSimulator) (f : ℕ → ℝ × ℝ × NoiseSample) :
    ℕ → DroneSimulator
  | 0 => sim
  | k + 1 =>
    (update_simulation (runTicks sim f k) (f k).1 (f k).2.1 (f k).2.2).1

end Ops

/-- `needle` occurs at the head of `hay` (on character lists). -/
def charsPrefixAt : List Char → List Char → Bool
  | [], _ => true
  | _ :: _, [] => false
  | a :: n, b :: h => a == b && charsPrefixAt n h

/-- `needle` occurs somewhere in `hay` (on character lists). -/
def charsContain (needle : List Char) : List Char → Bool
  | [] => charsPrefixAt needle []
  | b :: h => charsPrefixAt needle (b :: h) || charsContain needle h

/-- Case-insensitive substring test on strings (Python
`needle.lower() in hay.lower()`). -/
def containsCI (needle hay : String) : Bool :=
  charsContain (needle.data.map Char.toLower) (hay.data.map Char.toLower)

/-- A one-waypoint mission descriptor (lat 40, lng −74, alt 50). -/
def sampleWpData : WaypointData :=
  { lat := some 40, latitude := none, lng := some (-74), longitude := none,
    alt := some 50, altitude_m := none }

/-- A descriptor with one waypoint. -/
def sampleMission : MissionData :=
  { mission_id := some 7, waypoints := [sampleWpData] }

/-- A descriptor with an empty waypoint list. -/
def emptyMission : MissionData :=
  { mission_id := some 2, waypoints := [] }

/-- A waypoint-data record with every key absent. -/
def emptyWpData : WaypointData :=
  { lat := none, latitude := none, lng := none, longitude := none,
    alt := none, altitude_m := none }

/-- A freshly constructed simulator (zero wind). -/
def idleSim : DroneSimulator := initSimulator 0 0

/-- A mid-mission simulator: one pending waypoint, battery 50,
status `"running"`. -/
def runningSim : DroneSimulator :=
  { state := { initDroneState 0 0 with battery_percent := 50 }
    waypoints := [buildWaypoint sampleWpData]
    current_waypoint_index := 0
    mission_id := some 1
    mission_status := "running" }

/-- A simulator whose mission has finished. -/
def completedSim : DroneSimulator :=
  { initSimulator 0 0 with mission_status := "completed" }

/-- An idle simulator whose battery has drained to 42%. -/
def idleSim42 : DroneSimulator :=
  { initSimulator 0 0 with
    state := { initDroneState 0 0 with battery_percent := 42 } }

/-- An idle simulator still holding the previous mission's data. -/
def staleSim : DroneSimulator :=
  { initSimulator 0 0 with
    waypoints := [buildWaypoint sampleWpData]
    mission_id := some 1 }

/-- A running simulator whose battery has dropped to 4.9%. -/
def lowBatterySim : DroneSimulator :=
  { runningSim with
    state := { initDroneState 0 0 with battery_percent := 4.9 } }

/-- A waypoint at the default drone position (lat 40.7128,
lng −74.0060). -/
def finalWp : Waypoint :=
  { latitude := 40.7128, longitude := -74.0060, altitude_m := 50,
    action := "fly_to", duration_s := 0, completed := false }

/-- A running simulator at 4.9% battery whose single remaining waypoint
is the drone's own position (within arrival tolerance). -/
def lowBatteryFinalSim : DroneSimulator :=
  { state := { initDroneState 0 0 with battery_percent := 4.9 }
    waypoints := [finalWp]
    current_waypoint_index := 0
    mission_id := some 1
    mission_status := "running" }

/-- A running simulator at 4.9% battery with two waypoints left. -/
def lowBattery2Sim : DroneSimulator :=
  { state := { initDroneState 0 0 with battery_percent := 4.9 }
    waypoints := [finalWp, finalWp]
    current_waypoint_index := 0
    mission_id := some 1
    mission_status := "running" }

/-- A drone parked at the south pole (all other fields default). -/
def poleState : DroneState :=
  { initDroneState 0 0 with latitude := -90, longitude := 0 }

/-- A waypoint at the north pole. -/
def poleWaypoint : Waypoint :=
  { latitude := 90, longitude := 0, altitude_m := 0, action := "fly_to",
    duration_s := 0, completed := false }

/-! ### Geodesy lemmas -/

lemma sin_half_sub_sq (p q : ℝ) :
    Real.sin ((p - q) / 2) ^ 2 = Real.sin ((q - p) / 2) ^ 2 := by
  have h : (p - q) / 2 = -((q - p) / 2) := by ring
  rw [h, Real.sin_neg, neg_sq]

/-- The haversine distance is symmetric in its two points. -/
lemma calculate_distance_comm (lat1 lon1 lat2 lon2 : ℝ) :
    calculate_distance lat1 lon1 lat2 lon2 =
      calculate_distance lat2 lon2 lat1 lon1 := by
  simp only [calculate_distance]
  rw [sin_half_sub_sq (radians lat2) (radians lat1),
    sin_half_sub_sq (radians lon2) (radians lon1),
    mul_comm (Real.cos (radians lat1)) (Real.cos (radians lat2))]

/-- The haversine distance from a point to itself is zero. -/
lemma calculate_distance_self (lat lon : ℝ) :
    calculate_distance lat lon lat lon = 0 := by
  simp only [calculate_distance, sub_self, zero_div, Real.sin_zero,
    atan2]
  norm_num

/-! ### Auxiliary lemmas about the step functions -/

/-- Python `x % 360` is the identity on `[0, 360)`. -/
lemma pymod_eq_self (x : ℝ) (h0 : 0 ≤ x) (h1 : x < 360) : pymod x 360 = x := by
  unfold pymod
  have hfl : ⌊x / 360⌋ = 0 := by
    rw [Int.floor_eq_zero_iff]
    constructor
    · positivity
    · rw [div_lt_one (by norm_num : (0:ℝ) < 360)]
      simpa using h1
  rw [hfl]
  push_cast
  ring

/-- The navigation step never touches battery, wind, or the
flight/mission flags. -/
lemma move_preserves_misc (s : DroneState) (wp : Waypoint) (dt g : ℝ) :
    (move_towards_waypoint s wp dt g).1.battery_percent = s.battery_percent ∧
    (move_towards_waypoint s wp dt g).1.wind_speed_ms = s.wind_speed_ms ∧
    (move_towards_waypoint s wp dt g).1.mission_active = s.mission_active ∧
    (move_towards_waypoint s wp dt g).1.is_flying = s.is_flying := by
  unfold move_towards_waypoint
  dsimp only
  split
  · exact ⟨rfl, rfl, rfl, rfl⟩
  · split <;> exact ⟨rfl, rfl, rfl, rfl⟩

/-- Sensor noise never touches battery or the flight/mission flags. -/
lemma noise_preserves_misc (s : DroneState) (n : NoiseSample) :
    (add_realistic_noise s n).battery_percent = s.battery_percent ∧
    (add_realistic_noise s n).mission_active = s.mission_active ∧
    (add_realistic_noise s n).is_flying = s.is_flying :=
  ⟨rfl, rfl, rfl⟩

/-- With non-negative elapsed time and wind speed, the battery drop is
non-negative. -/
lemma battery_drop_nonneg (s : DroneState) (dt : ℝ)
    (hdt : 0 ≤ dt) (hw : 0 ≤ s.wind_speed_ms) :
    0 ≤ battery_drop s dt := by
  unfold battery_drop
  dsimp only
  have h1 : (0:ℝ) ≤
      (if 10 < s.speed_ms then battery_drain_rate * 1.5
       else battery_drain_rate) := by
    split <;> norm_num [battery_drain_rate]
  refine mul_nonneg (mul_nonneg ?_ (by linarith)) (by linarith)
  split
  · nlinarith
  · exact h1

/-- The battery value written by `update_battery` (the same in both
branches). -/
lemma update_battery_value (sim : DroneSimulator) (dt : ℝ) :
    (update_battery sim dt).1.state.battery_percent =
      max 0 (sim.state.battery_percent - battery_drop sim.state dt) := by
  unfold update_battery
  dsimp only
  split <;> rfl

/-- With non-negative elapsed time and wind, `update_battery` keeps the
battery in `[0, old value]`. -/
lemma update_battery_le (sim : DroneSimulator) (dt : ℝ)
    (hdt : 0 ≤ dt) (hw : 0 ≤ sim.state.wind_speed_ms)
    (hb : 0 ≤ sim.state.battery_percent) :
    0 ≤ (update_battery sim dt).1.state.battery_percent ∧
    (update_battery sim dt).1.state.battery_percent ≤
      sim.state.battery_percent := by
  rw [update_battery_value]
  have hd := battery_drop_nonneg sim.state dt hdt hw
  exact ⟨le_max_left _ _, max_le hb (by linarith)⟩

/-- `update_battery` never touches the flight/mission flags or wind. -/
lemma update_battery_preserves_misc (sim : DroneSimulator) (dt : ℝ) :
    (update_battery sim dt).1.state.mission_active =
      sim.state.mission_active ∧
    (update_battery sim dt).1.state.is_flying = sim.state.is_flying ∧
    (update_battery sim dt).1.state.wind_speed_ms =
      sim.state.wind_speed_ms ∧
    (update_battery sim dt).1.waypoints = sim.waypoints ∧
    (update_battery sim dt).1.current_waypoint_index =
      sim.current_waypoint_index := by
  unfold update_battery
  dsimp only
  split <;> exact ⟨rfl, rfl, rfl, rfl, rfl⟩

/-- Haversine distance between the poles: `a = 1`, so the distance is
`R * π`. -/
lemma calculate_distance_poles :
    calculate_distance (-90) 0 90 0 = 6371000 * Real.pi := by
  simp only [calculate_distance, radians]
  have e1 : ((90:ℝ) * (Real.pi / 180) - -90 * (Real.pi / 180)) / 2 =
      Real.pi / 2 := by ring
  have e2 : ((0:ℝ) * (Real.pi / 180) - 0 * (Real.pi / 180)) / 2 = 0 := by
    ring
  have e3 : (-90:ℝ) * (Real.pi / 180) = -(Real.pi / 2) := by ring
  rw [e1, e2, e3, Real.sin_pi_div_two, Real.sin_zero, Real.cos_neg,
    Real.cos_pi_div_two]
  norm_num [atan2]
  ring

/-- With `dt = 0` the navigation step leaves position, altitude and
heading unchanged (the heading must be a canonical angle in
`[0, 360)`, as `%360` always leaves it). -/
lemma move_zero_dt (s : DroneState) (wp : Waypoint) (g : ℝ)
    (hh0 : 0 ≤ s.heading_deg) (hh1 : s.heading_deg < 360) :
    (move_towards_waypoint s wp 0 g).1.latitude = s.latitude ∧
    (move_towards_waypoint s wp 0 g).1.longitude = s.longitude ∧
    (move_towards_waypoint s wp 0 g).1.altitude_m = s.altitude_m ∧
    (move_towards_waypoint s wp 0 g).1.heading_deg = s.heading_deg := by
  unfold move_towards_waypoint
  dsimp only
  split
  · exact ⟨rfl, rfl, rfl, rfl⟩
  · simp only [mul_zero, zero_mul, zero_div, neg_zero, add_zero, zero_add]
    rw [max_eq_left (min_le_left _ _), add_zero,
      pymod_eq_self s.heading_deg hh0 hh1]
    split <;> exact ⟨rfl, rfl, rfl, rfl⟩

/-- With `dt = 0` the battery update is a strict no-op on the battery
value. -/
lemma update_battery_zero_dt (sim : DroneSimulator)
    (hb : 0 ≤ sim.state.battery_percent) :
    (update_battery sim 0).1.state.battery_percent =
      sim.state.battery_percent := by
  rw [update_battery_value]
  have hz : battery_drop sim.state 0 = 0 := by
    unfold battery_drop
    dsimp only
    simp
  rw [hz, sub_zero, max_eq_right hb]

/-- Noise application with all-zero samples is the identity. -/
lemma noise_zero_sample (s : DroneState) :
    add_realistic_noise s zeroNoise = s := by
  simp [add_realistic_noise, zeroNoise]

/-- A `dt = 0` navigation step towards a far waypoint rewrites the
pitch to `-7.5` degrees. -/
lemma move_zero_dt_pitch :
    (move_towards_waypoint poleState poleWaypoint 0 0).1.pitch_deg =
      -7.5 := by
  unfold move_towards_waypoint
  dsimp only [poleState, poleWaypoint, initDroneState]
  rw [calculate_distance_poles]
  have hgt : (2:ℝ) < 6371000 * Real.pi := by
    nlinarith [Real.pi_gt_three]
  rw [if_neg (by simpa [position_tolerance_m] using not_le.mpr hgt)]
  have hmin : min max_speed_ms (6371000 * Real.pi / 2) = 15 := by
    rw [max_speed_ms]
    exact min_eq_left (by nlinarith [Real.pi_gt_three])
  rw [hmin]
  rw [if_pos (by norm_num : (1:ℝ) < 15)]
  norm_num

/-! ### Claim theorems -/

/-- Claim C8: for all coordinate pairs the haversine distance is
symmetric, `distance(a,b) = distance(b,a)`, and identical points are at
distance zero, `distance(a,a) = 0`. -/
theorem distance_symm_and_self :
    (∀ lat1 lon1 lat2 lon2 : ℝ,
      calculate_distance lat1 lon1 lat2 lon2 =
        calculate_distance lat2 lon2 lat1 lon1) ∧
    (∀ lat lon : ℝ, calculate_distance lat lon lat lon = 0) :=
  ⟨calculate_distance_comm, calculate_distance_self⟩

/-- Battery bounds for the common tail of a tick: noise after a
battery update, for any simulator whose battery/wind satisfy the
invariants. -/
lemma tick_battery_branch (sim1 : DroneSimulator) (dt b : ℝ)
    (n : NoiseSample) (hdt : 0 ≤ dt)
    (hw : 0 ≤ sim1.state.wind_speed_ms)
    (hb : 0 ≤ sim1.state.battery_percent)
    (heq : sim1.state.battery_percent = b) (hb100 : b ≤ 100) :
    0 ≤ (add_realistic_noise (update_battery sim1 dt).1.state
      n).battery_percent ∧
    (add_realistic_noise (update_battery sim1 dt).1.state
      n).battery_percent ≤ 100 ∧
    (add_realistic_noise (update_battery sim1 dt).1.state
      n).battery_percent ≤ b := by
  rw [(noise_preserves_misc _ n).1]
  obtain ⟨h0, hle⟩ := update_battery_le sim1 dt hdt hw hb
  rw [heq] at hle
  exact ⟨h0, le_trans hle hb100, hle⟩

/-- Claim C4: every tick keeps `battery_percent` in `[0, 100]`, and the
battery is non-increasing across a tick (hence across consecutive ticks
while the mission runs).  Hypotheses: the measured interval and the
sampled wind speed are non-negative, and the battery starts inside the
invariant range. -/
theorem tick_battery_bounds (sim : DroneSimulator) (dt gsNoise : ℝ)
    (n : NoiseSample) (hdt : 0 ≤ dt)
    (hw : 0 ≤ sim.state.wind_speed_ms)
    (hb0 : 0 ≤ sim.state.battery_percent)
    (hb1 : sim.state.battery_percent ≤ 100) :
    0 ≤ (update_simulation sim dt gsNoise n).1.state.battery_percent ∧
    (update_simulation sim dt gsNoise n).1.state.battery_percent ≤ 100 ∧
    (update_simulation sim dt gsNoise n).1.state.battery_percent ≤
      sim.state.battery_percent := by
  unfold update_simulation
  dsimp only
  split
  · exact ⟨hb0, hb1, le_refl _⟩
  · split
    · exact ⟨hb0, hb1, le_refl _⟩
    · obtain ⟨mb, mw, -, -⟩ :=
        move_preserves_misc sim.state
          (sim.waypoints.getD sim.current_waypoint_index default) dt gsNoise
      split
      · split
        all_goals
          apply tick_battery_branch _ dt _ _ hdt
          · dsimp only; rw [mw]; exact hw
          · dsimp only; rw [mb]; exact hb0
          · dsimp only; exact mb
          · exact hb1
      · apply tick_battery_branch _ dt _ _ hdt
        · dsimp only; rw [mw]; exact hw
        · dsimp only; rw [mb]; exact hb0
        · dsimp only; exact mb
        · exact hb1

/-- Witness for C4 at a concrete running simulator and `dt = 1`. -/
theorem tick_battery_bounds_witness :
    0 ≤ (update_simulation runningSim 1 0 zeroNoise).1.state.battery_percent ∧
    (update_simulation runningSim 1 0 zeroNoise).1.state.battery_percent ≤
      100 ∧
    (update_simulation runningSim 1 0 zeroNoise).1.state.battery_percent ≤
      runningSim.state.battery_percent :=
  tick_battery_bounds runningSim 1 0 zeroNoise (by norm_num)
    (by norm_num [runningSim, initDroneState])
    (by norm_num [runningSim, initDroneState])
    (by norm_num [runningSim, initDroneState])

/-- When the battery is below 5% while the status is `running`, the
battery update aborts the mission and logs its warning (the emergency
branch of `update_battery`). -/
lemma update_battery_emergency (sim : DroneSimulator) (dt : ℝ)
    (hdt : 0 ≤ dt) (hw : 0 ≤ sim.state.wind_speed_ms)
    (hb5 : sim.state.battery_percent < 5)
    (hs : sim.mission_status = "running") :
    (update_battery sim dt).1.mission_status = "aborted" ∧
    ∃ e : LogEvent, (update_battery sim dt).2 = some e ∧
      e.level = "warning" ∧ containsCI "battery" e.message = true := by
  have hd := battery_drop_nonneg sim.state dt hdt hw
  have hlt :
      max 0 (sim.state.battery_percent - battery_drop sim.state dt) < 5 :=
    max_lt (by norm_num) (by linarith)
  unfold update_battery
  dsimp only
  rw [if_pos ⟨hlt, hs⟩]
  exact ⟨rfl, ⟨_, rfl, rfl, by decide⟩⟩

/-- When the status is not `running`, the battery update keeps the
status and emits no warning (the emergency branch is skipped). -/
lemma update_battery_not_running (sim : DroneSimulator) (dt : ℝ)
    (h : sim.mission_status ≠ "running") :
    (update_battery sim dt).1.mission_status = sim.mission_status ∧
    (update_battery sim dt).2 = none := by
  unfold update_battery
  dsimp only
  rw [if_neg (fun hc => h hc.2)]
  exact ⟨rfl, rfl⟩

/-- Emergency abort for the common tail of a tick, for any simulator
whose battery/wind/status satisfy the trigger conditions. -/
lemma tick_abort_branch (simA : DroneSimulator) (dt b w : ℝ)
    (hdt : 0 ≤ dt) (hbat : simA.state.battery_percent = b)
    (hwind : simA.state.wind_speed_ms = w) (hw : 0 ≤ w) (hb5 : b < 5)
    (hs : simA.mission_status = "running") :
    (update_battery simA dt).1.mission_status = "aborted" ∧
    ∃ e : LogEvent, (update_battery simA dt).2 = some e ∧
      e.level = "warning" ∧ containsCI "battery" e.message = true :=
  update_battery_emergency simA dt hdt (hwind.symm ▸ hw)
    (hbat.symm ▸ hb5) hs

/-- Counterexample to C5 as stated: with battery at 4.9% and the final
waypoint within arrival tolerance, the next tick completes the mission
(simulator.py:437-439) before the battery check runs, so the status
becomes `completed`, not `aborted`, and no warning is emitted. -/
theorem low_battery_completion_race :
    lowBatteryFinalSim.state.battery_percent < 5 ∧
    lowBatteryFinalSim.mission_status = "running" ∧
    (update_simulation
      lowBatteryFinalSim 0.1 0 zeroNoise).1.mission_status =
      "completed" ∧
    (update_simulation
      lowBatteryFinalSim 0.1 0 zeroNoise).1.mission_status ≠
      "aborted" ∧
    (update_simulation lowBatteryFinalSim 0.1 0 zeroNoise).2.2 =
      none := by
  have hmv : move_towards_waypoint lowBatteryFinalSim.state
      (lowBatteryFinalSim.waypoints.getD
        lowBatteryFinalSim.current_waypoint_index default) 0.1 0 =
      (lowBatteryFinalSim.state, true) := by
    have harg : lowBatteryFinalSim.waypoints.getD
        lowBatteryFinalSim.current_waypoint_index default = finalWp := rfl
    rw [harg]
    unfold move_towards_waypoint
    have hd : calculate_distance lowBatteryFinalSim.state.latitude
        lowBatteryFinalSim.state.longitude finalWp.latitude
        finalWp.longitude = 0 := calculate_distance_self _ _
    rw [hd, if_pos (by norm_num [position_tolerance_m])]
  have key : (update_simulation
        lowBatteryFinalSim 0.1 0 zeroNoise).1.mission_status =
        "completed" ∧
      (update_simulation lowBatteryFinalSim 0.1 0 zeroNoise).2.2 =
        none := by
    unfold update_simulation
    rw [if_neg (fun h => h rfl),
      if_neg (by simp [lowBatteryFinalSim, finalWp])]
    dsimp only
    rw [hmv]
    dsimp only
    rw [if_pos rfl, if_pos (by simp [lowBatteryFinalSim])]
    dsimp only
    exact update_battery_not_running _ 0.1 (fun hc => by simp at hc)
  exact ⟨by norm_num [lowBatteryFinalSim, initDroneState], rfl, key.1,
    by rw [key.1]; decide, key.2⟩

/-- Claim C5 (amended): if `battery_percent` is below 5 while the
status is `running`, the next tick transitions the status to `aborted`
and emits a warning-level message containing "battery"
(case-insensitive) — provided that tick does not itself complete the
mission; when the same tick reaches the final waypoint, the completion
transition runs before the battery check (see the counterexample) and
no abort or warning occurs. -/
theorem low_battery_tick_aborts (sim : DroneSimulator) (dt g : ℝ)
    (n : NoiseSample) (hdt : 0 ≤ dt)
    (hw : 0 ≤ sim.state.wind_speed_ms)
    (hb5 : sim.state.battery_percent < 5)
    (hs : sim.mission_status = "running")
    (hwne : sim.waypoints ≠ [])
    (hidx : sim.current_waypoint_index < sim.waypoints.length)
    (hnotlast : (move_towards_waypoint sim.state
        (sim.waypoints.getD sim.current_waypoint_index default)
        dt g).2 = true →
      sim.current_waypoint_index + 1 < sim.waypoints.length) :
    (update_simulation sim dt g n).1.mission_status = "aborted" ∧
    ∃ e : LogEvent, (update_simulation sim dt g n).2.2 = some e ∧
      e.level = "warning" ∧ containsCI "battery" e.message = true := by
  obtain ⟨mb, mw, -, -⟩ :=
    move_preserves_misc sim.state
      (sim.waypoints.getD sim.current_waypoint_index default) dt g
  unfold update_simulation
  rw [if_neg (fun h => h hs),
    if_neg (by push_neg; exact ⟨hwne, hidx⟩)]
  dsimp only
  split
  · rename_i h2
    rw [List.length_set, if_neg (not_le.mpr (hnotlast h2))]
    dsimp only
    apply tick_abort_branch _ dt sim.state.battery_percent
      sim.state.wind_speed_ms hdt
    · dsimp only
      exact mb
    · dsimp only
      exact mw
    · exact hw
    · exact hb5
    · exact hs
  · dsimp only
    apply tick_abort_branch _ dt sim.state.battery_percent
      sim.state.wind_speed_ms hdt
    · dsimp only
      exact mb
    · dsimp only
      exact mw
    · exact hw
    · exact hb5
    · exact hs

/-- Witness for the amended C5: battery 4.9%, `dt = 0.1`, two pending
waypoints (so the tick cannot complete the mission). -/
theorem low_battery_tick_aborts_witness :
    (update_simulation lowBattery2Sim 0.1 0 zeroNoise).1.mission_status =
      "aborted" ∧
    ∃ e : LogEvent,
      (update_simulation lowBattery2Sim 0.1 0 zeroNoise).2.2 = some e ∧
      e.level = "warning" ∧ containsCI "battery" e.message = true := by
  apply low_battery_tick_aborts
  · norm_num
  · norm_num [lowBattery2Sim, initDroneState]
  · norm_num [lowBattery2Sim, initDroneState]
  · rfl
  · simp [lowBattery2Sim]
  · simp [lowBattery2Sim]
  · intro h
    simp [lowBattery2Sim]

/-- Claim C9: the low-battery emergency abort (inside `update_battery`)
never clears `mission_active` or `is_flying`; neither do pause, resume,
the navigation step or the noise step.  `mission_active` is cleared
exactly by the command abort (from `running`/`paused`); the mission
completion paths of the tick are the only other writers (shown in the
pause/tick lemmas used elsewhere). -/
theorem emergency_abort_preserves_flags :
    (∀ (sim : DroneSimulator) (dt : ℝ),
      (update_battery sim dt).1.state.mission_active =
        sim.state.mission_active ∧
      (update_battery sim dt).1.state.is_flying = sim.state.is_flying) ∧
    (∀ sim : DroneSimulator,
      (pause_mission sim).state.mission_active =
        sim.state.mission_active ∧
      (pause_mission sim).state.is_flying = sim.state.is_flying) ∧
    (∀ sim : DroneSimulator,
      (resume_mission sim).state.mission_active =
        sim.state.mission_active ∧
      (resume_mission sim).state.is_flying = sim.state.is_flying) ∧
    (∀ (s : DroneState) (wp : Waypoint) (dt g : ℝ),
      (move_towards_waypoint s wp dt g).1.mission_active =
        s.mission_active ∧
      (move_towards_waypoint s wp dt g).1.is_flying = s.is_flying) ∧
    (∀ (s : DroneState) (n : NoiseSample),
      (add_realistic_noise s n).mission_active = s.mission_active ∧
      (add_realistic_noise s n).is_flying = s.is_flying) ∧
    (∀ sim : DroneSimulator,
      (abort_mission sim).state.mission_active =
        (if sim.mission_status = "running" ∨ sim.mission_status = "paused"
         then false else sim.state.mission_active)) := by
  refine ⟨?_, ?_, ?_, ?_, ?_, ?_⟩
  · intro sim dt
    exact ⟨(update_battery_preserves_misc sim dt).1,
      (update_battery_preserves_misc sim dt).2.1⟩
  · intro sim
    unfold pause_mission
    split <;> exact ⟨rfl, rfl⟩
  · intro sim
    unfold resume_mission
    split <;> exact ⟨rfl, rfl⟩
  · intro s wp dt g
    obtain ⟨-, -, h1, h2⟩ := move_preserves_misc s wp dt g
    exact ⟨h1, h2⟩
  · intro s n
    exact ⟨(noise_preserves_misc s n).2.1, (noise_preserves_misc s n).2.2⟩
  · intro sim
    unfold abort_mission
    split <;> rfl

/-- Counterexample to C1 as stated: `start_mission` does not reset the
battery to 100 — starting from an idle simulator at 42% leaves 42%. -/
theorem start_does_not_reset_battery :
    (start_mission idleSim42 sampleMission 0 0).state.battery_percent =
      42 ∧ ((42 : ℝ) ≠ 100) := by
  constructor
  · rfl
  · norm_num

/-- Claim C1 (amended): starting from `idle` with a non-empty
descriptor loads the waypoint list, resets the cursor to 0, seeds the
position near the first waypoint (within the ±0.001° sampling range),
zeroes the altitude, sets the flying/mission-active flags and makes the
status `running` — but leaves `battery_percent` unchanged rather than
resetting it to 100. -/
theorem start_from_idle_postcondition (sim : DroneSimulator)
    (md : MissionData) (r1 r2 : ℝ) (w : WaypointData)
    (ws : List WaypointData) (hidle : sim.mission_status = "idle")
    (hwps : md.waypoints = w :: ws)
    (hr1 : |r1| ≤ 0.001) (hr2 : |r2| ≤ 0.001) :
    (start_mission sim md r1 r2).mission_status = "running" ∧
    (start_mission sim md r1 r2).waypoints =
      buildWaypoint w :: ws.map buildWaypoint ∧
    (start_mission sim md r1 r2).current_waypoint_index = 0 ∧
    (start_mission sim md r1 r2).mission_id = md.mission_id ∧
    (start_mission sim md r1 r2).state.latitude =
      (buildWaypoint w).latitude + r1 ∧
    |(start_mission sim md r1 r2).state.latitude -
      (buildWaypoint w).latitude| ≤ 0.001 ∧
    (start_mission sim md r1 r2).state.longitude =
      (buildWaypoint w).longitude + r2 ∧
    |(start_mission sim md r1 r2).state.longitude -
      (buildWaypoint w).longitude| ≤ 0.001 ∧
    (start_mission sim md r1 r2).state.altitude_m = 0 ∧
    (start_mission sim md r1 r2).state.is_flying = true ∧
    (start_mission sim md r1 r2).state.mission_active = true ∧
    (start_mission sim md r1 r2).state.battery_percent =
      sim.state.battery_percent := by
  have hne : ¬ sim.mission_status = "running" := by simp [hidle]
  unfold start_mission
  rw [if_neg hne, hwps]
  dsimp only [List.map]
  refine ⟨rfl, rfl, rfl, rfl, rfl, ?_, rfl, ?_, rfl, rfl, rfl, rfl⟩
  · simpa using hr1
  · simpa using hr2

/-- Witness for the amended C1 at a concrete idle simulator and
one-waypoint descriptor, offsets at the sampling bound. -/
theorem start_from_idle_postcondition_witness :
    (start_mission idleSim sampleMission 0.001 0.001).mission_status =
      "running" ∧
    (start_mission idleSim sampleMission 0.001 0.001).state.battery_percent =
      idleSim.state.battery_percent ∧
    (start_mission
      idleSim sampleMission 0.001 0.001).current_waypoint_index = 0 := by
  have h := start_from_idle_postcondition idleSim sampleMission 0.001 0.001
    sampleWpData [] rfl rfl (by rw [abs_le]; constructor <;> norm_num)
    (by rw [abs_le]; constructor <;> norm_num)
  exact ⟨h.1, h.2.2.2.2.2.2.2.2.2.2.2, h.2.2.1⟩

/-- Counterexample to C2 as stated: `start_mission` only guards against
`"running"`, so issuing `start` with a non-empty descriptor from the
terminal state `"completed"` changes the status to `"running"`. -/
theorem start_leaves_terminal_state :
    completedSim.mission_status = "completed" ∧
    (start_mission completedSim sampleMission 0 0).mission_status =
      "running" ∧
    (("running" : String) ≠ "completed") := by
  exact ⟨rfl, rfl, by decide⟩

/-- Claim C2 (amended): `pause`, `resume` and `abort` are no-ops in the
terminal states `completed`/`aborted` and in `idle`, and `start` with a
non-empty descriptor moves `idle` to `running`; but `start` is guarded
only against `running`, so it also restarts from `completed` or
`aborted` (the terminal states are not closed under `start`). -/
theorem terminal_state_command_behavior :
    (∀ sim : DroneSimulator,
      sim.mission_status = "completed" ∨ sim.mission_status = "aborted" →
        pause_mission sim = sim ∧ resume_mission sim = sim ∧
        abort_mission sim = sim) ∧
    (∀ sim : DroneSimulator, sim.mission_status = "idle" →
        pause_mission sim = sim ∧ resume_mission sim = sim ∧
        abort_mission sim = sim) ∧
    (∀ (sim : DroneSimulator) (md : MissionData) (r1 r2 : ℝ),
      sim.mission_status ≠ "running" → md.waypoints ≠ [] →
        (start_mission sim md r1 r2).mission_status = "running") := by
  refine ⟨?_, ?_, ?_⟩
  · intro sim h
    rcases h with h | h <;>
      simp [pause_mission, resume_mission, abort_mission, h]
  · intro sim h
    simp [pause_mission, resume_mission, abort_mission, h]
  · intro sim md r1 r2 hs hw
    unfold start_mission
    rw [if_neg hs]
    rcases hmap : md.waypoints.map buildWaypoint with - | ⟨a, l⟩
    · exact absurd (List.map_eq_nil_iff.mp hmap) hw
    · rfl

/-- Witness for the amended C2: terminal no-ops and the idle start at
concrete simulators. -/
theorem terminal_state_command_behavior_witness :
    pause_mission completedSim = completedSim ∧
    abort_mission completedSim = completedSim ∧
    (start_mission idleSim sampleMission 0 0).mission_status =
      "running" := by
  refine ⟨(terminal_state_command_behavior.1 completedSim (Or.inl rfl)).1,
    (terminal_state_command_behavior.1 completedSim (Or.inl rfl)).2.2,
    terminal_state_command_behavior.2.2 idleSim sampleMission 0 0
      (by simp [idleSim, initSimulator]) (by simp [sampleMission])⟩

/-- Counterexample to C6 as stated: a waypoint entry with no altitude
key defaults to altitude 50, not 0. -/
theorem missing_altitude_defaults_to_fifty :
    (buildWaypoint emptyWpData).altitude_m = 50 ∧ ((50 : ℝ) ≠ 0) := by
  constructor
  · rfl
  · norm_num

/-- Claim C6 (amended): missing latitude/longitude keys default to 0
when the waypoint list is built, but a missing altitude key defaults to
50; a descriptor with an empty waypoint list makes `start` fail (the
logged-error path) with the status still `idle`. -/
theorem waypoint_defaults_and_empty_start :
    (∀ w : WaypointData, w.lat = none → w.latitude = none →
      (buildWaypoint w).latitude = 0) ∧
    (∀ w : WaypointData, w.lng = none → w.longitude = none →
      (buildWaypoint w).longitude = 0) ∧
    (∀ w : WaypointData, w.alt = none → w.altitude_m = none →
      (buildWaypoint w).altitude_m = 50) ∧
    (∀ (sim : DroneSimulator) (md : MissionData) (r1 r2 : ℝ),
      sim.mission_status = "idle" → md.waypoints = [] →
        (start_mission sim md r1 r2).mission_status = "idle") := by
  refine ⟨?_, ?_, ?_, ?_⟩
  · intro w h1 h2
    simp [buildWaypoint, h1, h2]
  · intro w h1 h2
    simp [buildWaypoint, h1, h2]
  · intro w h1 h2
    simp [buildWaypoint, h1, h2]
  · intro sim md r1 r2 hidle hmt
    unfold start_mission
    rw [if_neg (by simp [hidle]), hmt]
    exact hidle

/-- Witness for the amended C6 at an all-missing waypoint entry and an
empty descriptor. -/
theorem waypoint_defaults_and_empty_start_witness :
    (buildWaypoint emptyWpData).latitude = 0 ∧
    (buildWaypoint emptyWpData).longitude = 0 ∧
    (buildWaypoint emptyWpData).altitude_m = 50 ∧
    (start_mission idleSim emptyMission 0 0).mission_status = "idle" :=
  ⟨waypoint_defaults_and_empty_start.1 emptyWpData rfl rfl,
   waypoint_defaults_and_empty_start.2.1 emptyWpData rfl rfl,
   waypoint_defaults_and_empty_start.2.2.1 emptyWpData rfl rfl,
   waypoint_defaults_and_empty_start.2.2.2 idleSim emptyMission 0 0
     rfl rfl⟩

/-- Claim C10: a `start` that fails on an empty waypoint list is not
atomic — the status stays `idle`, but `mission_id` has already been
overwritten with the new descriptor's id and the previous waypoint list
has been replaced by the empty list. -/
theorem failed_start_overwrites_mission_fields (sim : DroneSimulator)
    (md : MissionData) (r1 r2 : ℝ) (hidle : sim.mission_status = "idle")
    (hmt : md.waypoints = []) :
    (start_mission sim md r1 r2).mission_status = "idle" ∧
    (start_mission sim md r1 r2).mission_id = md.mission_id ∧
    (start_mission sim md r1 r2).waypoints = [] := by
  unfold start_mission
  rw [if_neg (by simp [hidle]), hmt]
  exact ⟨hidle, rfl, rfl⟩

/-- Witness for C10: the stale simulator still holds mission 1's data;
the failed start of mission 2 wipes them while staying `idle`. -/
theorem failed_start_overwrites_mission_fields_witness :
    (start_mission staleSim emptyMission 0 0).mission_status = "idle" ∧
    (start_mission staleSim emptyMission 0 0).mission_id = some 2 ∧
    (start_mission staleSim emptyMission 0 0).waypoints = [] ∧
    staleSim.mission_id = some 1 ∧ staleSim.waypoints ≠ [] := by
  have h := failed_start_overwrites_mission_fields staleSim emptyMission
    0 0 rfl rfl
  exact ⟨h.1, h.2.1, h.2.2, rfl, by simp [staleSim]⟩

/-- A tick is the identity on the simulator whenever the status is not
`running` (the early return of `update_simulation`). -/
lemma tick_not_running (sim : DroneSimulator) (dt g : ℝ) (n : NoiseSample)
    (h : sim.mission_status ≠ "running") :
    (update_simulation sim dt g n).1 = sim := by
  unfold update_simulation
  rw [if_pos h]

/-- Claim C7: `pause` followed by any number of ticks and `resume`
leaves `current_waypoint_index` and the waypoint list (hence every
`completed` flag) unchanged: no motion or waypoint processing happens
while the status is `paused`. -/
theorem pause_resume_preserves_progress (sim : DroneSimulator)
    (f : ℕ → ℝ × ℝ × NoiseSample) (k : ℕ)
    (hrun : sim.mission_status = "running") :
    (runTicks (pause_mission sim) f k).mission_status = "paused" ∧
    (runTicks (pause_mission sim) f k).current_waypoint_index =
      sim.current_waypoint_index ∧
    (runTicks (pause_mission sim) f k).waypoints = sim.waypoints ∧
    (resume_mission
      (runTicks (pause_mission sim) f k)).mission_status = "running" ∧
    (resume_mission
      (runTicks (pause_mission sim) f k)).current_waypoint_index =
      sim.current_waypoint_index ∧
    (resume_mission (runTicks (pause_mission sim) f k)).waypoints =
      sim.waypoints := by
  have hp : pause_mission sim = { sim with mission_status := "paused" } := by
    unfold pause_mission
    rw [if_pos hrun]
  have key : runTicks (pause_mission sim) f k = pause_mission sim := by
    induction k with
    | zero => rfl
    | succ k ih =>
      show (update_simulation (runTicks (pause_mission sim) f k) _ _ _).1 = _
      rw [ih, tick_not_running]
      rw [hp]
      simp
  rw [key, hp]
  refine ⟨rfl, rfl, rfl, ?_, ?_, ?_⟩ <;> simp [resume_mission]

/-- Witness for C7: three ticks inside a pause interval of the concrete
running simulator. -/
theorem pause_resume_preserves_progress_witness :
    (runTicks (pause_mission runningSim)
      (fun _ => (1, 0, zeroNoise)) 3).mission_status = "paused" ∧
    (runTicks (pause_mission runningSim)
      (fun _ => (1, 0, zeroNoise)) 3).current_waypoint_index =
      runningSim.current_waypoint_index ∧
    (resume_mission (runTicks (pause_mission runningSim)
      (fun _ => (1, 0, zeroNoise)) 3)).mission_status = "running" := by
  have h := pause_resume_preserves_progress runningSim
    (fun _ => (1, 0, zeroNoise)) 3 rfl
  exact ⟨h.1, h.2.1, h.2.2.2.1⟩

/-- Counterexample to C3 as stated: a navigation step with `dt = 0`
still rewrites the attitude — starting with pitch 0 towards a far
waypoint the step sets pitch to −7.5°. -/
theorem zero_dt_step_rewrites_attitude :
    poleState.pitch_deg = 0 ∧
    (move_towards_waypoint poleState poleWaypoint 0 0).1.pitch_deg =
      -7.5 ∧ ((-7.5 : ℝ) ≠ 0) :=
  ⟨rfl, move_zero_dt_pitch, by norm_num⟩

/-- Claim C3 (amended): with `dt = 0` the navigation step leaves
latitude, longitude, altitude and heading unchanged (for a canonical
heading in `[0, 360)`), the battery update produces zero change, and
the noise update with all-zero samples is the identity; however the
step still rewrites the speed/attitude fields (see the counterexample),
and a negative `dt` is not guarded against at all. -/
theorem zero_dt_tick_effects (s : DroneState) (wp : Waypoint) (g : ℝ)
    (sim : DroneSimulator)
    (hh0 : 0 ≤ s.heading_deg) (hh1 : s.heading_deg < 360)
    (hb : 0 ≤ sim.state.battery_percent) :
    (move_towards_waypoint s wp 0 g).1.latitude = s.latitude ∧
    (move_towards_waypoint s wp 0 g).1.longitude = s.longitude ∧
    (move_towards_waypoint s wp 0 g).1.altitude_m = s.altitude_m ∧
    (move_towards_waypoint s wp 0 g).1.heading_deg = s.heading_deg ∧
    (update_battery sim 0).1.state.battery_percent =
      sim.state.battery_percent ∧
    add_realistic_noise s zeroNoise = s := by
  obtain ⟨h1, h2, h3, h4⟩ := move_zero_dt s wp g hh0 hh1
  exact ⟨h1, h2, h3, h4, update_battery_zero_dt sim hb,
    noise_zero_sample s⟩

/-- Witness for the amended C3 at the default drone state, the far
waypoint and the concrete running simulator. -/
theorem zero_dt_tick_effects_witness :
    (move_towards_waypoint (initDroneState 0 0)
      poleWaypoint 0 0).1.latitude = (initDroneState 0 0).latitude ∧
    (move_towards_waypoint (initDroneState 0 0)
      poleWaypoint 0 0).1.heading_deg =
      (initDroneState 0 0).heading_deg ∧
    (update_battery runningSim 0).1.state.battery_percent =
      runningSim.state.battery_percent := by
  have h := zero_dt_tick_effects (initDroneState 0 0) poleWaypoint 0
    runningSim (by norm_num [initDroneState])
    (by norm_num [initDroneState])
    (by norm_num [runningSim, initDroneState])
  exact ⟨h.1, h.2.2.2.1, h.2.2.2.2.1⟩
